import Mathlib

/-!
Verification of the estimation calculator and cashflow projector of the
biogas landing page (src/page.tsx).

The numeric model is exact rational arithmetic (ℚ). JavaScript's
Math.round(x) is modelled as ⌊x + 1/2⌋ (round half toward positive
infinity), which is its behaviour on all finite numbers; the repository's
round(x, d) helper becomes roundTo below. The Infinity sentinel that the
code maps to null before returning is modelled by an Option: the observable
output has payback_months = none exactly when the code returns null.
-/

/-- JavaScript Math.round: round half toward positive infinity. -/
def jround (x : ℚ) : ℤ := ⌊x + 1 / 2⌋

/-- The round(x, d) helper of src/page.tsx: Math.round(x * 10^d) / 10^d. -/
def roundTo (x : ℚ) (d : ℕ) : ℚ := (jround (x * 10 ^ d) : ℚ) / 10 ^ d

/-- One entry of the static FEEDSTOCK catalog of src/page.tsx. -/
structure Feedstock where
  key : String
  label : String
  factor_m3_per_kg : ℚ
deriving DecidableEq, Inhabited

/-- The static feedstock catalog (src/page.tsx lines 181-186). -/
def FEEDSTOCK : List Feedstock :=
  [ { key := "cattle", label := "Qoramol go‘ngi", factor_m3_per_kg := 0.03 },
    { key := "poultry", label := "Parranda go‘ngi", factor_m3_per_kg := 0.06 },
    { key := "food", label := "Oziq-ovqat chiqindisi", factor_m3_per_kg := 0.09 },
    { key := "mixed", label := "Aralash organik", factor_m3_per_kg := 0.05 } ]

/-- The argument object of estimate. The two price fields carry Option so
that an omitted argument (JavaScript undefined, triggering the default
parameter value) is representable as none. -/
structure EstimateInput where
  feedstockKey : String
  kgPerDay : ℚ
  gasPriceUZS : Option ℚ
  electricityPriceUZS : Option ℚ
deriving DecidableEq

/-- The result object of estimate (src/page.tsx lines 206-215). -/
structure EstimateResult where
  feedstock : String
  biogas_m3 : ℚ
  thermal_kwh : ℚ
  electric_kwh : ℚ
  monthly_saving : ℚ
  capex : ℚ
  payback_months : Option ℚ
  co2_kg_per_day : ℚ
deriving DecidableEq

/-- FEEDSTOCK.find((x) => x.key === feedstockKey) ?? FEEDSTOCK[0]. -/
def resolveFeedstock (key : String) : Feedstock :=
  (FEEDSTOCK.find? fun x => x.key == key).getD FEEDSTOCK.headI

/-- The biogas_m3 local of estimate before rounding:
max(0, kgPerDay) * fs.factor_m3_per_kg. -/
def biogasRaw (input : EstimateInput) : ℚ :=
  max 0 input.kgPerDay * (resolveFeedstock input.feedstockKey).factor_m3_per_kg

/-- The monthly_saving local of estimate before rounding:
(biogas_m3 * gasPriceUZS + electric_kwh * electricityPriceUZS) * 30,
with electric_kwh = biogas_m3 * 2 and the default prices 1800 and 450. -/
def monthlySavingRaw (input : EstimateInput) : ℚ :=
  (biogasRaw input * input.gasPriceUZS.getD 1800 +
      biogasRaw input * 2 * input.electricityPriceUZS.getD 450) * 30

/-- The capex local of estimate before rounding:
max(12_000_000, biogas_m3 * 1_200_000). -/
def capexRaw (input : EstimateInput) : ℚ :=
  max 12000000 (biogasRaw input * 1200000)

/-- The estimate function of src/page.tsx (lines 188-218), translated
field by field; every let below is the corresponding local of the source. -/
def estimate (input : EstimateInput) : EstimateResult :=
  let gasPriceUZS := input.gasPriceUZS.getD 1800
  let electricityPriceUZS := input.electricityPriceUZS.getD 450
  let fs := resolveFeedstock input.feedstockKey
  let biogas_m3 := max 0 input.kgPerDay * fs.factor_m3_per_kg
  let thermal_kwh := biogas_m3 * 6
  let electric_kwh := biogas_m3 * 2
  let monthly_saving :=
    (biogas_m3 * gasPriceUZS + electric_kwh * electricityPriceUZS) * 30
  let capex := max 12000000 (biogas_m3 * 1200000)
  let payback_months : Option ℚ :=
    if 0 < monthly_saving then some (roundTo (capex / monthly_saving) 1) else none
  let co2_kg_per_day := biogas_m3 * 1.9
  { feedstock := fs.label
    biogas_m3 := roundTo biogas_m3 2
    thermal_kwh := roundTo thermal_kwh 1
    electric_kwh := roundTo electric_kwh 1
    monthly_saving := (jround monthly_saving : ℚ)
    capex := (jround capex : ℚ)
    payback_months := payback_months
    co2_kg_per_day := roundTo co2_kg_per_day 1 }

/-- result.capex || 0 and result.monthly_saving || 0: on rational numbers
the only falsy value is 0, so the guard maps 0 to 0 and fixes everything
else; it is the identity. -/
def orZero (x : ℚ) : ℚ := if x = 0 then 0 else x

/-- One point of the cashflow chart series. -/
structure CashflowPoint where
  month : ℕ
  cum : ℚ
deriving DecidableEq

/-- The loop body of chartData: starting from a running total cum, emit n
points with months month, month+1, ...; each step first adds m to the
running total and then emits Math.round of it. -/
def cashflowFrom (m : ℚ) : ℚ → ℕ → ℕ → List CashflowPoint
  | _, 0, _ => []
  | cum, n + 1, month =>
    { month := month, cum := (jround (cum + m) : ℚ) } ::
      cashflowFrom m (cum + m) n (month + 1)

/-- The chartData computation of src/page.tsx (lines 384-393): 12 points,
months 1..12, running total started at -capex. -/
def chartData (capexIn mIn : ℚ) : List CashflowPoint :=
  let capex := orZero capexIn
  let m := orZero mIn
  cashflowFrom m (-capex) 12 1

/-- The worked example input of the spec: cattle manure, 600 kg/day,
prices 1800 and 450. -/
def exampleInput : EstimateInput :=
  { feedstockKey := "cattle", kgPerDay := 600,
    gasPriceUZS := some 1800, electricityPriceUZS := some 450 }

/-- A tiny but positive daily mass: 0.0001 kg of cattle manure. -/
def tinyMassInput : EstimateInput :=
  { feedstockKey := "cattle", kgPerDay := 1 / 10000,
    gasPriceUZS := some 1800, electricityPriceUZS := some 450 }

/-- A negative daily mass input. -/
def negMassInput : EstimateInput :=
  { feedstockKey := "cattle", kgPerDay := -5,
    gasPriceUZS := some 1800, electricityPriceUZS := some 450 }

/-- A fractional daily mass, 400.0001 kg of cattle manure, whose capex is
not a whole number before rounding. -/
def fracMassInput : EstimateInput :=
  { feedstockKey := "cattle", kgPerDay := 4000001 / 10000,
    gasPriceUZS := some 1800, electricityPriceUZS := some 450 }

/-- An input whose feedstock key matches no catalog entry. -/
def unknownKeyInput : EstimateInput :=
  { feedstockKey := "banana", kgPerDay := 600,
    gasPriceUZS := some 1800, electricityPriceUZS := some 450 }

-- -----------------------------------------------------------------
-- Helper lemmas
-- -----------------------------------------------------------------

lemma estimate_biogas (input : EstimateInput) :
    (estimate input).biogas_m3 = roundTo (biogasRaw input) 2 := rfl

lemma estimate_thermal (input : EstimateInput) :
    (estimate input).thermal_kwh = roundTo (biogasRaw input * 6) 1 := rfl

lemma estimate_electric (input : EstimateInput) :
    (estimate input).electric_kwh = roundTo (biogasRaw input * 2) 1 := rfl

lemma estimate_monthly (input : EstimateInput) :
    (estimate input).monthly_saving = (jround (monthlySavingRaw input) : ℚ) := rfl

lemma estimate_capexF (input : EstimateInput) :
    (estimate input).capex = (jround (capexRaw input) : ℚ) := rfl

lemma estimate_payback (input : EstimateInput) :
    (estimate input).payback_months =
      if 0 < monthlySavingRaw input then
        some (roundTo (capexRaw input / monthlySavingRaw input) 1)
      else none := rfl

lemma estimate_co2 (input : EstimateInput) :
    (estimate input).co2_kg_per_day = roundTo (biogasRaw input * 1.9) 1 := rfl

lemma jround_zero : jround 0 = 0 := by
  have : ((0 : ℚ) + 1 / 2) = 1 / 2 := by ring
  rw [jround, this]
  norm_num [Int.floor_eq_zero_iff]

lemma roundTo_zero (d : ℕ) : roundTo 0 d = 0 := by
  rw [roundTo, zero_mul, jround_zero]
  norm_num

lemma abs_jround_sub_le (x : ℚ) : |(jround x : ℚ) - x| ≤ 1 / 2 := by
  have h1 : ((jround x : ℚ)) ≤ x + 1 / 2 := Int.floor_le (x + 1 / 2)
  have h2 : x + 1 / 2 < (jround x : ℚ) + 1 := Int.lt_floor_add_one (x + 1 / 2)
  rw [abs_le]
  constructor <;> linarith

lemma abs_roundTo_sub_le (x : ℚ) (d : ℕ) :
    |roundTo x d - x| ≤ 1 / (2 * 10 ^ d) := by
  have hp : (0 : ℚ) < 10 ^ d := by positivity
  have h := abs_jround_sub_le (x * 10 ^ d)
  have hx : roundTo x d - x = ((jround (x * 10 ^ d) : ℚ) - x * 10 ^ d) / 10 ^ d := by
    rw [roundTo]
    field_simp
    ring
  rw [hx, abs_div, abs_of_pos hp, div_le_div_iff₀ hp (by positivity)]
  calc |(jround (x * 10 ^ d) : ℚ) - x * 10 ^ d| * (2 * 10 ^ d)
      ≤ (1 / 2) * (2 * 10 ^ d) := by
        apply mul_le_mul_of_nonneg_right h (by positivity)
    _ = 1 * 10 ^ d := by ring

lemma jround_intCast (a : ℤ) : jround (a : ℚ) = a := by
  rw [jround, Int.floor_int_add]
  norm_num [Int.floor_eq_zero_iff]

lemma orZero_eq (x : ℚ) : orZero x = x := by
  rw [orZero]
  split <;> simp_all

-- -----------------------------------------------------------------
-- C1
-- -----------------------------------------------------------------

/-- C1: on the input feedstockKey = cattle, kgPerDay = 600,
gasPriceUZS = 1800, electricityPriceUZS = 450, estimate returns
biogas_m3 = 18, thermal_kwh = 108, electric_kwh = 36,
monthly_saving = 1458000, capex = 21600000, payback_months = 14.8 and
co2_kg_per_day = 34.2. -/
theorem c1_example_end_to_end :
    estimate { feedstockKey := "cattle", kgPerDay := 600,
               gasPriceUZS := some 1800, electricityPriceUZS := some 450 } =
      { feedstock := "Qoramol go‘ngi", biogas_m3 := 18, thermal_kwh := 108,
        electric_kwh := 36, monthly_saving := 1458000, capex := 21600000,
        payback_months := some 14.8, co2_kg_per_day := 34.2 } := by
  norm_num [estimate, resolveFeedstock, FEEDSTOCK, roundTo, jround,
    EstimateResult.mk.injEq, List.find?]

lemma cashflowFrom_length (m : ℚ) :
    ∀ (n : ℕ) (cum : ℚ) (month : ℕ), (cashflowFrom m cum n month).length = n := by
  intro n
  induction n with
  | zero => intro cum month; rfl
  | succ n ih => intro cum month; simp [cashflowFrom, ih]

lemma cashflowFrom_getElem? (m : ℚ) :
    ∀ (n : ℕ) (cum : ℚ) (month k : ℕ), k < n →
      (cashflowFrom m cum n month)[k]? =
        some { month := month + k, cum := (jround (cum + ((k : ℚ) + 1) * m) : ℚ) } := by
  intro n
  induction n with
  | zero => intro cum month k hk; exact absurd hk (Nat.not_lt_zero k)
  | succ n ih =>
    intro cum month k hk
    cases k with
    | zero =>
      simp only [cashflowFrom, List.getElem?_cons_zero, Option.some.injEq,
        CashflowPoint.mk.injEq]
      refine ⟨by omega, ?_⟩
      congr 2
      push_cast
      ring
    | succ k =>
      have hk2 : k < n := Nat.lt_of_succ_lt_succ hk
      have h := ih (cum + m) (month + 1) k hk2
      simp only [cashflowFrom, List.getElem?_cons_succ, h, Option.some.injEq,
        CashflowPoint.mk.injEq]
      refine ⟨by omega, ?_⟩
      congr 2
      push_cast
      ring

lemma cashflowFrom_map_month (m : ℚ) :
    ∀ (n : ℕ) (cum : ℚ) (month : ℕ),
      (cashflowFrom m cum n month).map CashflowPoint.month = List.range' month n := by
  intro n
  induction n with
  | zero => intro cum month; rfl
  | succ n ih => intro cum month; simp [cashflowFrom, ih, List.range']

lemma chartData_getElem? (c m : ℚ) (k : ℕ) (hk : k < 12) :
    (chartData c m)[k]? =
      some { month := k + 1, cum := (jround (-c + ((k : ℚ) + 1) * m) : ℚ) } := by
  simp only [chartData, orZero_eq]
  rw [cashflowFrom_getElem? m 12 (-c) 1 k hk]
  have : 1 + k = k + 1 := by omega
  rw [this]

/-- C3: the cashflow series always has exactly 12 points, with months
exactly 1,2,...,12 (hence strictly increasing), and the point at month 12
has cumulative value within 1/2 of -capex + 12 * monthly_saving, for every
pair of inputs whatever their sign or magnitude. -/
theorem c3_cashflow_shape (c m : ℚ) :
    (chartData c m).length = 12 ∧
    (chartData c m).map CashflowPoint.month = List.range' 1 12 ∧
    (chartData c m).Pairwise (fun p q => p.month < q.month) ∧
    ∃ p, (chartData c m)[11]? = some p ∧ p.month = 12 ∧
      |p.cum - (-c + 12 * m)| ≤ 1 / 2 := by
  have hmap : (chartData c m).map CashflowPoint.month = List.range' 1 12 := by
    simp only [chartData, orZero_eq]
    exact cashflowFrom_map_month m 12 (-(c)) 1
  refine ⟨?_, hmap, ?_, ?_⟩
  · simp only [chartData, orZero_eq]
    exact cashflowFrom_length m 12 (-(c)) 1
  · have hpw : ((chartData c m).map CashflowPoint.month).Pairwise (· < ·) := by
      rw [hmap]
      decide
    exact (List.pairwise_map.mp hpw)
  · refine ⟨{ month := 12, cum := (jround (-c + 12 * m) : ℚ) }, ?_, rfl, ?_⟩
    · rw [chartData_getElem? c m 11 (by norm_num)]
      norm_num
    · exact abs_jround_sub_le _

/-- C10: because estimate returns capex and monthly_saving already rounded
to whole units (integers), the per-point Math.round in chartData is the
identity, and the k-th point's cumulative value equals
-capex + (k+1) * monthly_saving exactly. -/
theorem c10_cashflow_exact (input : EstimateInput) (k : ℕ) (hk : k < 12) :
    (chartData (estimate input).capex (estimate input).monthly_saving)[k]? =
      some { month := k + 1,
             cum := -(estimate input).capex +
               ((k : ℚ) + 1) * (estimate input).monthly_saving } := by
  rw [chartData_getElem? _ _ k hk]
  rw [estimate_capexF, estimate_monthly]
  have hint : -( (jround (capexRaw input) : ℚ)) +
      ((k : ℚ) + 1) * (jround (monthlySavingRaw input) : ℚ) =
      (((-(jround (capexRaw input)) + ((k : ℤ) + 1) * jround (monthlySavingRaw input)) : ℤ) : ℚ) := by
    push_cast
    ring
  rw [hint, jround_intCast]


/-- C2 counterexample: at tinyMassInput (0.0001 kg/day of cattle manure)
the unrounded monthly saving is 0.243, so the returned monthly_saving
field is Math.round(0.243) = 0 while payback_months is not null; the
claimed iff between the two returned fields fails. -/
theorem c2_counterexample :
    (estimate tinyMassInput).monthly_saving ≤ 0 ∧
    (estimate tinyMassInput).payback_months ≠ none := by
  rw [estimate_monthly, estimate_payback]
  have hb : biogasRaw tinyMassInput = 3 / 1000000 := by
    rw [biogasRaw]
    norm_num [tinyMassInput, resolveFeedstock, FEEDSTOCK, List.find?]
  have hm : monthlySavingRaw tinyMassInput = 243 / 1000 := by
    rw [monthlySavingRaw, hb]
    norm_num [tinyMassInput]
  rw [hm]
  constructor
  · norm_num [jround]
  · norm_num
    exact Option.some_ne_none _

/-- C2 amended: payback_months is null exactly when the UNROUNDED monthly
saving is nonpositive (not the rounded field the claim names), and when
the unrounded saving is positive it equals the unrounded capex divided by
the unrounded saving, rounded to one decimal; no error and no infinity is
returned. -/
theorem c2_payback_iff_raw (input : EstimateInput) :
    ((estimate input).payback_months = none ↔ monthlySavingRaw input ≤ 0) ∧
    (0 < monthlySavingRaw input →
      (estimate input).payback_months =
        some (roundTo (capexRaw input / monthlySavingRaw input) 1)) := by
  rw [estimate_payback]
  constructor
  · split
    case isTrue h => simp [not_le.mpr h]
    case isFalse h => simp [not_lt.mp h]
  · intro h
    rw [if_pos h]

/-- Witness for C2's amended theorem at the worked example input, where
the unrounded monthly saving 1458000 is positive. -/
theorem c2_payback_iff_raw_witness :
    (estimate exampleInput).payback_months =
      some (roundTo (capexRaw exampleInput / monthlySavingRaw exampleInput) 1) :=
  (c2_payback_iff_raw exampleInput).2 (by
    norm_num [monthlySavingRaw, biogasRaw, exampleInput, resolveFeedstock,
      FEEDSTOCK, List.find?])

/-- C4: nonpositive daily mass is clamped to zero, so the biogas volume
and every returned field that is a pure multiple of it are zero and
payback_months is null. -/
theorem c4_nonpositive_mass (input : EstimateInput) (h : input.kgPerDay ≤ 0) :
    (estimate input).biogas_m3 = 0 ∧ (estimate input).thermal_kwh = 0 ∧
    (estimate input).electric_kwh = 0 ∧ (estimate input).monthly_saving = 0 ∧
    (estimate input).co2_kg_per_day = 0 ∧ (estimate input).payback_months = none := by
  have hb : biogasRaw input = 0 := by
    rw [biogasRaw, max_eq_left h, zero_mul]
  have hm : monthlySavingRaw input = 0 := by
    rw [monthlySavingRaw, hb]
    ring
  refine ⟨?_, ?_, ?_, ?_, ?_, ?_⟩
  · rw [estimate_biogas, hb, roundTo_zero]
  · rw [estimate_thermal, hb, zero_mul, roundTo_zero]
  · rw [estimate_electric, hb, zero_mul, roundTo_zero]
  · rw [estimate_monthly, hm, jround_zero]
    norm_num
  · rw [estimate_co2, hb, zero_mul, roundTo_zero]
  · rw [estimate_payback, hm]
    norm_num

/-- Witness for C4 at a negative mass input. -/
theorem c4_nonpositive_mass_witness :
    (estimate negMassInput).biogas_m3 = 0 ∧
    (estimate negMassInput).thermal_kwh = 0 ∧
    (estimate negMassInput).electric_kwh = 0 ∧
    (estimate negMassInput).monthly_saving = 0 ∧
    (estimate negMassInput).co2_kg_per_day = 0 ∧
    (estimate negMassInput).payback_months = none :=
  c4_nonpositive_mass negMassInput (by norm_num [negMassInput])

/-- C5 counterexample: at fracMassInput (400.0001 kg/day of cattle manure)
the unrounded biogas volume is 12.000003 m3, the unrounded capex is
14400003.6 and the returned capex field is Math.round of it, 14400004;
that differs both from max(12000000, biogas_field * 1200000) = 14400000
computed from the rounded biogas field and from the unrounded maximum
14400003.6, so the claimed exact equality fails. -/
theorem c5_counterexample :
    (estimate fracMassInput).capex ≠
      max 12000000 ((estimate fracMassInput).biogas_m3 * 1200000) ∧
    (estimate fracMassInput).capex ≠
      max 12000000 (biogasRaw fracMassInput * 1200000) := by
  have hb : biogasRaw fracMassInput = 12000003 / 1000000 := by
    rw [biogasRaw]
    norm_num [fracMassInput, resolveFeedstock, FEEDSTOCK, List.find?]
  have hcapex : (estimate fracMassInput).capex = 14400004 := by
    rw [estimate_capexF, capexRaw, hb]
    have hmax : max (12000000 : ℚ) (12000003 / 1000000 * 1200000) = 144000036 / 10 := by
      rw [max_eq_right] <;> norm_num
    rw [hmax]
    norm_num [jround]
  have hbio : (estimate fracMassInput).biogas_m3 = 12 := by
    rw [estimate_biogas, hb]
    norm_num [roundTo, jround]
  rw [hcapex, hbio, hb]
  constructor
  · rw [max_eq_right (by norm_num)]
    norm_num
  · rw [max_eq_right (by norm_num)]
    norm_num

/-- C5 amended: the returned capex field is Math.round of
max(12000000, unrounded biogas * 1200000); it is never below the 12000000
floor, and agrees with the unrounded maximum within half a currency
unit. -/
theorem c5_capex_floor (input : EstimateInput) :
    (estimate input).capex = (jround (max 12000000 (biogasRaw input * 1200000)) : ℚ) ∧
    12000000 ≤ (estimate input).capex ∧
    |(estimate input).capex - max 12000000 (biogasRaw input * 1200000)| ≤ 1 / 2 := by
  refine ⟨estimate_capexF input, ?_, ?_⟩
  · rw [estimate_capexF]
    have h1 : (12000000 : ℚ) ≤ capexRaw input := le_max_left _ _
    have h2 : (12000000 : ℤ) ≤ jround (capexRaw input) := by
      rw [jround]
      refine Int.le_floor.mpr ?_
      push_cast
      linarith
    exact_mod_cast h2
  · rw [estimate_capexF]
    exact abs_jround_sub_le _

lemma estimate_resolve_congr (i1 i2 : EstimateInput)
    (hfs : resolveFeedstock i1.feedstockKey = resolveFeedstock i2.feedstockKey)
    (h2 : i1.kgPerDay = i2.kgPerDay) (h3 : i1.gasPriceUZS = i2.gasPriceUZS)
    (h4 : i1.electricityPriceUZS = i2.electricityPriceUZS) :
    estimate i1 = estimate i2 := by
  simp only [estimate, hfs, h2, h3, h4]

/-- C6: a feedstock key matching no catalog entry resolves to the first
catalog entry (cattle manure, yield factor 0.03) and the whole result is
the one computed for the cattle key; nothing is raised (estimate is
total). -/
theorem c6_unknown_key_fallback (input : EstimateInput)
    (h : ∀ fs ∈ FEEDSTOCK, fs.key ≠ input.feedstockKey) :
    resolveFeedstock input.feedstockKey = FEEDSTOCK.headI ∧
    (resolveFeedstock input.feedstockKey).factor_m3_per_kg = 0.03 ∧
    estimate input = estimate { input with feedstockKey := "cattle" } := by
  have hfind : FEEDSTOCK.find? (fun x => x.key == input.feedstockKey) = none := by
    rw [List.find?_eq_none]
    intro x hx
    simpa using h x hx
  have h1 : resolveFeedstock input.feedstockKey = FEEDSTOCK.headI := by
    rw [resolveFeedstock, hfind]
    rfl
  refine ⟨h1, by rw [h1]; rfl, ?_⟩
  exact estimate_resolve_congr input { input with feedstockKey := "cattle" }
    (by rw [h1]; rfl) rfl rfl rfl

/-- Witness for C6 at the unknown key "banana". -/
theorem c6_unknown_key_fallback_witness :
    resolveFeedstock unknownKeyInput.feedstockKey = FEEDSTOCK.headI ∧
    (resolveFeedstock unknownKeyInput.feedstockKey).factor_m3_per_kg = 0.03 ∧
    estimate unknownKeyInput =
      estimate { unknownKeyInput with feedstockKey := "cattle" } :=
  c6_unknown_key_fallback unknownKeyInput (by decide)

/-- C7: the catalog has exactly the four entries with yield factors 0.03,
0.06, 0.09 and 0.05, and for an input naming any of them with nonnegative
mass, the returned biogas volume equals dailyMassKg * yieldFactor up to
the two-decimal rounding (within 1/200). -/
theorem c7_catalog_and_yield :
    FEEDSTOCK.length = 4 ∧
    FEEDSTOCK.map (fun fs => (fs.key, fs.factor_m3_per_kg)) =
      [("cattle", 0.03), ("poultry", 0.06), ("food", 0.09), ("mixed", 0.05)] ∧
    ∀ (input : EstimateInput), ∀ fs ∈ FEEDSTOCK, input.feedstockKey = fs.key →
      0 ≤ input.kgPerDay →
      |(estimate input).biogas_m3 - input.kgPerDay * fs.factor_m3_per_kg| ≤ 1 / 200 := by
  refine ⟨rfl, rfl, ?_⟩
  intro input fs hmem hkey hkg
  have hres : resolveFeedstock input.feedstockKey = fs := by
    rw [hkey]
    fin_cases hmem <;> rfl
  have hb : biogasRaw input = input.kgPerDay * fs.factor_m3_per_kg := by
    rw [biogasRaw, hres, max_eq_right hkg]
  rw [estimate_biogas, hb]
  have h := abs_roundTo_sub_le (input.kgPerDay * fs.factor_m3_per_kg) 2
  norm_num at h
  exact h

/-- Witness for C7 at the worked example input (cattle, 600 kg/day). -/
theorem c7_catalog_and_yield_witness :
    |(estimate exampleInput).biogas_m3 - 600 * 0.03| ≤ 1 / 200 :=
  c7_catalog_and_yield.2.2 exampleInput
    { key := "cattle", label := "Qoramol go‘ngi", factor_m3_per_kg := 0.03 }
    (by simp [FEEDSTOCK]) rfl (by norm_num [exampleInput])

/-- C8: estimate is deterministic and depends only on the four input
fields (plus the static catalog): inputs equal field by field give equal
results. -/
theorem c8_deterministic (i1 i2 : EstimateInput)
    (h1 : i1.feedstockKey = i2.feedstockKey) (h2 : i1.kgPerDay = i2.kgPerDay)
    (h3 : i1.gasPriceUZS = i2.gasPriceUZS)
    (h4 : i1.electricityPriceUZS = i2.electricityPriceUZS) :
    estimate i1 = estimate i2 :=
  estimate_resolve_congr i1 i2 (by rw [h1]) h2 h3 h4

/-- Witness for C8: the named example input and the identical literal
record give the same result. -/
theorem c8_deterministic_witness :
    estimate exampleInput =
      estimate { feedstockKey := "cattle", kgPerDay := 600,
                 gasPriceUZS := some 1800, electricityPriceUZS := some 450 } :=
  c8_deterministic exampleInput
    { feedstockKey := "cattle", kgPerDay := 600,
      gasPriceUZS := some 1800, electricityPriceUZS := some 450 } rfl rfl rfl rfl

/-- C9: omitting a price argument (undefined in JavaScript, none here) is
the same as passing its default, 1800 for gas and 450 for electricity, in
each of the three cases: only the gas price omitted (the electricity price
provided and arbitrary), only the electricity price omitted (the gas price
provided and arbitrary), and both omitted. -/
theorem c9_default_prices (key : String) (kg gp ep : ℚ) :
    (estimate { feedstockKey := key, kgPerDay := kg,
                gasPriceUZS := none, electricityPriceUZS := some ep } =
      estimate { feedstockKey := key, kgPerDay := kg,
                 gasPriceUZS := some 1800, electricityPriceUZS := some ep }) ∧
    (estimate { feedstockKey := key, kgPerDay := kg,
                gasPriceUZS := some gp, electricityPriceUZS := none } =
      estimate { feedstockKey := key, kgPerDay := kg,
                 gasPriceUZS := some gp, electricityPriceUZS := some 450 }) ∧
    (estimate { feedstockKey := key, kgPerDay := kg,
                gasPriceUZS := none, electricityPriceUZS := none } =
      estimate { feedstockKey := key, kgPerDay := kg,
                 gasPriceUZS := some 1800, electricityPriceUZS := some 450 }) :=
  ⟨rfl, rfl, rfl⟩

/-- Witness for C10 at the worked example input and the first month. -/
theorem c10_cashflow_exact_witness :
    (chartData (estimate exampleInput).capex (estimate exampleInput).monthly_saving)[0]? =
      some { month := 0 + 1,
             cum := -(estimate exampleInput).capex +
               (((0 : ℕ) : ℚ) + 1) * (estimate exampleInput).monthly_saving } :=
  c10_cashflow_exact exampleInput 0 (by norm_num)
